import Mathlib

set_option maxHeartbeats 1000000

namespace ColdEmail

/-! Shallow embedding of the Cold-Email discovery and validation engine.
All definitions are translated from the repository source; theorems about
the claims follow after the definitions. -/

/-! String helpers modelling the Python string operations used by the source,
implemented structurally over character lists so that they evaluate on
concrete inputs. -/

/-- Auxiliary structural splitter over character lists. -/
def splitCharAux (sep : Char) : List Char → List Char → List (List Char)
  | [], acc => [acc.reverse]
  | c :: rest, acc =>
    if c = sep then acc.reverse :: splitCharAux sep rest []
    else splitCharAux sep rest (c :: acc)

/-- Python str.split with a one-character separator: splits on every
occurrence and keeps empty pieces. -/
def pySplit (sep : Char) (s : String) : List String :=
  (splitCharAux sep s.toList []).map (fun l => String.mk l)

/-- Python str.lower, character by character. -/
def strLower (s : String) : String := String.mk (s.toList.map Char.toLower)

/-- Python str.rstrip with a dot argument: drop trailing dots. -/
def stripTrailingDots (s : String) : String :=
  String.mk ((s.toList.reverse.dropWhile (fun c => c = '.')).reverse)

/-- Python substring membership needle in hay. -/
def strContainsSub (hay needle : String) : Bool :=
  decide (needle.toList <:+: hay.toList)

/-- The expression email.split, at-sign, index 1 used by the DNS and SMTP
validators: the second piece of the split, absent (an IndexError in Python)
when the address has no at-sign. -/
def pyDomainPart (email : String) : Option String :=
  match pySplit '@' email with
  | _ :: d :: _ => some d
  | _ => none

/-! Data model (`app/models/responses.py`). -/

/-- Embedding of `EmailResult`: a discovered candidate with address, source
identifier, confidence in [0,1] and an optional evidence URL.  Confidence is
modelled with exact rationals. -/
structure EmailResult where
  email : String
  source : String
  confidence : ℚ
  foundAt : Option String
  deriving DecidableEq

/-- Values stored in a StageOutcome details map (`details: Dict[str, Any]`):
strings, string lists, counts, booleans, and the provider-info record
(provider type, is-business, is-free, provider name). -/
inductive DetailValue where
  | s : String → DetailValue
  | sl : List String → DetailValue
  | n : Nat → DetailValue
  | b : Bool → DetailValue
  | pinfo : String → Bool → Bool → String → DetailValue
  deriving DecidableEq

/-- Embedding of `ValidationResult` from `app/models/responses.py`: one
outcome per validation stage. -/
structure StageOutcome where
  valid : Bool
  message : String
  details : Option (List (String × DetailValue))
  isCatchAll : Option Bool
  emailProvider : Option String
  isDisposable : Bool
  deriving DecidableEq

/-- The two validation levels of `EmailValidationRequest`. -/
inductive ValidationLevel where
  | basic
  | advanced
  deriving DecidableEq

/-- The response computed by `validate_email`: email, overall validity, the
per-stage outcome map, and the risk score. -/
structure PipelineOutput where
  email : String
  valid : Bool
  validationResults : List (String × StageOutcome)
  riskScore : ℚ
  deriving DecidableEq

/-- Lookup of one key in a StageOutcome details map. -/
def detailLookup (r : StageOutcome) (k : String) : Option DetailValue :=
  match r.details with
  | none => none
  | some ds => ds.lookup k

/-! Discovery orchestrator (`app/api/v1/discovery.py`). -/

/-- Embedding of the duplicate-removal loop of `discover_emails`
(`discovery.py` lines 93-99): walk the concatenated candidate list in order,
keeping a candidate only when its address has not been seen before.  The
`seen` set is modelled as a list of addresses. -/
def removeDuplicates : List EmailResult → List String → List EmailResult
  | [], _ => []
  | e :: rest, seen =>
    if e.email ∈ seen then removeDuplicates rest seen
    else e :: removeDuplicates rest (e.email :: seen)

/-- A provider as the orchestrator sees it: the `is_available()` flag and the
result of `discover(domain)`, which either returns candidates or raises. -/
structure ProviderModel where
  isAvailable : Bool
  discoverOutcome : Except String (List EmailResult)

/-- The response data assembled by `discover_emails` (`discovery.py` lines
101-108). -/
structure DiscoveryResponseModel where
  domain : String
  emails : List EmailResult
  totalFound : Nat
  cached : Bool
  methodsUsed : List String
  deriving DecidableEq

/-- Outcome of one discovery call: the HTTP 400 failure raised when no
requested method is available, or a response. -/
inductive DiscoveryOutcome where
  | badRequest
  | ok : DiscoveryResponseModel → DiscoveryOutcome
  deriving DecidableEq

/-- Embedding of the method-selection loop (`discovery.py` lines 70-74): a
requested method is used when it names a registered provider whose
`is_available()` is true. -/
def selectMethods (providers : List (String × ProviderModel))
    (methods : List String) : List String :=
  methods.filter (fun m =>
    match providers.lookup m with
    | some p => p.isAvailable
    | none => false)

/-- Embedding of the gather-and-skip-exceptions loop (`discovery.py` lines
83-91): a provider that raised contributes zero candidates. -/
def gatherResults (providers : List (String × ProviderModel))
    (methodsUsed : List String) : List (List EmailResult) :=
  methodsUsed.map (fun m =>
    match providers.lookup m with
    | some p =>
      match p.discoverOutcome with
      | Except.ok l => l
      | Except.error _ => []
    | none => [])

/-- Embedding of the cache-miss path of `discover_emails` (`discovery.py`
lines 65-114).  Returns the outcome, the list of methods actually invoked,
and whether the result was written to the cache. -/
def discoverEmails (providers : List (String × ProviderModel)) (domain : String)
    (methods : List String) : DiscoveryOutcome × List String × Bool :=
  let methodsUsed := selectMethods providers methods
  if methodsUsed = [] then (DiscoveryOutcome.badRequest, [], false)
  else
    let allEmails := (gatherResults providers methodsUsed).flatten
    let uniqueEmails := removeDuplicates allEmails []
    (DiscoveryOutcome.ok
        (DiscoveryResponseModel.mk domain uniqueEmails uniqueEmails.length false methodsUsed),
      methodsUsed, true)

/-- A candidate for address a@x.com with confidence 0.3, returned first. -/
def loCand : EmailResult := ⟨"a@x.com", "p1", 3/10, none⟩

/-- The same address returned by a second provider with confidence 0.9. -/
def hiCand : EmailResult := ⟨"a@x.com", "p2", 9/10, none⟩

/-! Validation pipeline (`app/api/v1/validation.py`). -/

/-- Embedding of the MX extraction in `validate_email` (`validation.py` line
78): `dns_result.details.get("mx_records", []) if dns_result.details else []`. -/
def getMxRecords (r : StageOutcome) : List String :=
  match r.details with
  | none => []
  | some ds =>
    match ds.lookup "mx_records" with
    | some (DetailValue.sl l) => l
    | some _ => []
    | none => []

/-- Embedding of the stage sequencing of `validate_email` (`validation.py`
lines 56-95), parameterised by the three stage validators: syntax and DNS
always run and contribute 0.5 and 0.3 to the risk score when they fail; the
SMTP stage runs only at level advanced with a valid DNS stage and contributes
0.2 on failure; the final risk score is clamped with min(risk, 1.0). -/
def validateEmailPipeline (email : String) (level : ValidationLevel)
    (syntaxV dnsV : String → StageOutcome)
    (smtpV : String → List String → StageOutcome) : PipelineOutput :=
  let syntaxResult := syntaxV email
  let dnsResult := dnsV email
  let baseValid := syntaxResult.valid && dnsResult.valid
  let baseRisk : ℚ :=
    (if syntaxResult.valid then 0 else 1/2) + (if dnsResult.valid then 0 else 3/10)
  if level = ValidationLevel.advanced ∧ dnsResult.valid = true then
    let smtpResult := smtpV email (getMxRecords dnsResult)
    PipelineOutput.mk email (baseValid && smtpResult.valid)
      [("syntax", syntaxResult), ("dns", dnsResult), ("smtp", smtpResult)]
      (min (baseRisk + (if smtpResult.valid then 0 else 1/5)) 1)
  else
    PipelineOutput.mk email baseValid
      [("syntax", syntaxResult), ("dns", dnsResult)]
      (min baseRisk 1)

/-- Risk score as a function of the three failure indicators: 0.5 for a syntax
failure plus 0.3 for a DNS failure plus 0.2 for an executed-and-failed SMTP
stage, clamped to at most 1. -/
def riskOf (syntaxFail dnsFail smtpFail : Bool) : ℚ :=
  min ((if syntaxFail then 1/2 else 0) + (if dnsFail then 3/10 else 0) +
    (if smtpFail then 1/5 else 0)) 1

/-! DNS validator (`app/services/email_validation/dns_validator.py`). -/

/-- Result of one resolver query as seen by `DNSValidator.validate`: an
answer, an NXDOMAIN/NoAnswer failure, a timeout, or another resolver error. -/
inductive ResolverOutcome (α : Type) where
  | ok : α → ResolverOutcome α
  | noAnswer
  | timeoutFail
  | otherFail : String → ResolverOutcome α
  deriving DecidableEq

/-- Free email provider signature table (`dns_validator.py` lines 15-34). -/
def freeProviderTable : List (String × String) :=
  [("gmail.com", "Gmail"), ("googlemail.com", "Gmail"),
   ("outlook.com", "Outlook"), ("hotmail.com", "Outlook"), ("live.com", "Outlook"),
   ("yahoo.com", "Yahoo"), ("yahoo.co.uk", "Yahoo"), ("yahoo.ca", "Yahoo"),
   ("aol.com", "AOL"),
   ("icloud.com", "iCloud"), ("me.com", "iCloud"), ("mac.com", "iCloud"),
   ("protonmail.com", "ProtonMail"),
   ("yandex.com", "Yandex"), ("yandex.ru", "Yandex"),
   ("zoho.com", "Zoho"), ("fastmail.com", "Fastmail"), ("tutanota.com", "Tutanota")]

/-- Business email provider signature table (`dns_validator.py` lines 37-48). -/
def businessProviderTable : List (String × String) :=
  [("google.com", "Google Workspace"),
   ("microsoft.com", "Microsoft 365"), ("office365.com", "Microsoft 365"),
   ("outlook.office365.com", "Microsoft 365"),
   ("amazonaws.com", "Amazon SES"), ("sendgrid.net", "SendGrid"),
   ("mailgun.org", "Mailgun"), ("postmarkapp.com", "Postmark"),
   ("mandrillapp.com", "Mandrill"), ("mailchimp.com", "Mailchimp")]

/-- Google Workspace MX host patterns of the fallback loop
(`dns_validator.py` line 156). -/
def googleMxPatterns : List String :=
  ["aspmx.l.google.com", "alt1.aspmx.l.google.com", "alt2.aspmx.l.google.com"]

/-- Microsoft 365 MX host patterns of the fallback loop
(`dns_validator.py` line 165). -/
def microsoftMxPatterns : List String :=
  ["outlook.office365.com", "mail.protection.outlook.com"]

/-- First provider name in a signature table whose domain is a substring of
the lowercased MX host. -/
def findProviderMatch (table : List (String × String)) (mxLower : String) :
    Option String :=
  table.findSome? (fun p => if strContainsSub mxLower p.1 then some p.2 else none)

/-- Embedding of `DNSValidator._analyze_mx_records` (`dns_validator.py` lines
118-173): classify the MX host list into (provider type, is-business,
is-free, provider name), checking the free table then the business table per
host, then the Google/Microsoft host patterns, defaulting to Custom. -/
def analyzeMxRecords (mxRecords : List String) : String × Bool × Bool × String :=
  match mxRecords.findSome? (fun mx =>
      let mxLower := strLower mx
      match findProviderMatch freeProviderTable mxLower with
      | some name => some ("Free", false, true, name)
      | none =>
        match findProviderMatch businessProviderTable mxLower with
        | some name => some ("Business", true, false, name)
        | none => none) with
  | some info => info
  | none =>
    match mxRecords.findSome? (fun mx =>
        let mxLower := strLower mx
        if googleMxPatterns.any (fun p => strContainsSub mxLower p) then
          some ("Business", true, false, "Google Workspace")
        else if microsoftMxPatterns.any (fun p => strContainsSub mxLower p) then
          some ("Business", true, false, "Microsoft 365")
        else none) with
    | some info => info
    | none => ("Custom", false, false, "Unknown")

/-- Embedding of `DNSValidator.validate` (`dns_validator.py` lines 50-116),
parameterised by the outcomes of the A-record and MX-record resolver queries:
extract the domain part (an IndexError for an address without an at-sign is
caught by the outer handler as a dns_error); NXDOMAIN/NoAnswer on the A query
is domain_not_found; resolver failures map to dns_timeout or dns_error; an
empty or missing MX answer is no_mx_records; otherwise the stage is valid
with the dot-stripped MX host list and provider classification in details. -/
def dnsValidate (aLookup : ResolverOutcome Unit)
    (mxLookup : ResolverOutcome (List String)) (email : String) : StageOutcome :=
  match pyDomainPart email with
  | none =>
    StageOutcome.mk false "DNS validation failed: list index out of range"
      (some [("error_type", DetailValue.s "dns_error")]) none none false
  | some _ =>
    match aLookup with
    | ResolverOutcome.noAnswer =>
      StageOutcome.mk false "Domain does not exist"
        (some [("error_type", DetailValue.s "domain_not_found")]) none none false
    | ResolverOutcome.timeoutFail =>
      StageOutcome.mk false "DNS lookup timeout"
        (some [("error_type", DetailValue.s "dns_timeout")]) none none false
    | ResolverOutcome.otherFail m =>
      StageOutcome.mk false ("DNS validation failed: " ++ m)
        (some [("error_type", DetailValue.s "dns_error")]) none none false
    | ResolverOutcome.ok _ =>
      match mxLookup with
      | ResolverOutcome.noAnswer =>
        StageOutcome.mk false "Domain has no MX records"
          (some [("error_type", DetailValue.s "no_mx_records")]) none none false
      | ResolverOutcome.timeoutFail =>
        StageOutcome.mk false "DNS lookup timeout"
          (some [("error_type", DetailValue.s "dns_timeout")]) none none false
      | ResolverOutcome.otherFail m =>
        StageOutcome.mk false ("DNS validation failed: " ++ m)
          (some [("error_type", DetailValue.s "dns_error")]) none none false
      | ResolverOutcome.ok rawMx =>
        let mxList := rawMx.map stripTrailingDots
        if mxList = [] then
          StageOutcome.mk false "Domain has no MX records"
            (some [("error_type", DetailValue.s "no_mx_records")]) none none false
        else
          let info := analyzeMxRecords mxList
          StageOutcome.mk true "Domain has valid MX records"
            (some [("mx_records", DetailValue.sl mxList),
              ("mx_count", DetailValue.n mxList.length),
              ("provider_info", DetailValue.pinfo info.1 info.2.1 info.2.2.1 info.2.2.2)])
            none (some info.1) false

/-- Modelled from the spec: the syntax stage delegates to the external
email_validator library call in `SyntaxValidator.validate`
(`syntax_validator.py` lines 20-31); the library itself is not part of this
repository.  Per the spec the structural well-formedness check accepts a
well-formed address and the stage returns the success outcome carrying the
normalized address, local part and domain. -/
def syntaxPassOutcome (email : String) : StageOutcome :=
  StageOutcome.mk true "Email syntax is valid"
    (some [("normalized_email", DetailValue.s email),
      ("local_part", DetailValue.s ((pySplit '@' email).headD "")),
      ("domain", DetailValue.s (((pySplit '@' email).drop 1).headD ""))])
    none none false

/-! SMTP validator (`app/services/email_validation/smtp_validator.py`).
The network conversation of `_check_mailbox_smtp` is a parameter
`smtpCheck : String → String → Bool × Bool × Bool` (valid, mailbox exists,
can deliver); the function is total because every exception inside it is
caught and turned into (False, False, False).  The random local part drawn by
`_check_catch_all` is the parameter `randomLocal`. -/

/-- Embedding of `SMTPValidator._check_catch_all` (`smtp_validator.py` lines
128-145): probe a forged address built from the random local part on the
same domain against the same host; accepted means catch-all.  A missing
at-sign raises IndexError, which the handler turns into False. -/
def smtpCheckCatchAll (smtpCheck : String → String → Bool × Bool × Bool)
    (randomLocal : String) (email mxRecord : String) : Bool :=
  match pyDomainPart email with
  | none => false
  | some domain =>
    let r := smtpCheck (randomLocal ++ "@" ++ domain) mxRecord
    r.1 && r.2.1

/-- The success outcome built by `SMTPValidator.validate` (`smtp_validator.py`
lines 41-52) for the first MX host that accepts the real address. -/
def smtpSuccessOutcome (smtpCheck : String → String → Bool × Bool × Bool)
    (randomLocal : String) (isDisp : Bool) (email mxRecord : String) : StageOutcome :=
  let r := smtpCheck email mxRecord
  let isCA := smtpCheckCatchAll smtpCheck randomLocal email mxRecord
  StageOutcome.mk true "Mailbox exists and accepts emails"
    (some [("mx_record", DetailValue.s mxRecord),
      ("mailbox_exists", DetailValue.b r.2.1),
      ("can_deliver", DetailValue.b r.2.2),
      ("is_catch_all", DetailValue.b isCA)])
    (some isCA) none isDisp

/-- The MX-host loop of `SMTPValidator.validate` (`smtp_validator.py` lines
34-62): return the success outcome at the first accepting host, else the
mailbox_not_found outcome after exhausting all hosts. -/
def smtpTryHosts (smtpCheck : String → String → Bool × Bool × Bool)
    (randomLocal : String) (isDisp : Bool) (email : String) :
    List String → StageOutcome
  | [] =>
    StageOutcome.mk false "Mailbox does not exist or is not accepting emails"
      (some [("error_type", DetailValue.s "mailbox_not_found")]) none none isDisp
  | mx :: rest =>
    if (smtpCheck email mx).1 then smtpSuccessOutcome smtpCheck randomLocal isDisp email mx
    else smtpTryHosts smtpCheck randomLocal isDisp email rest

/-- Embedding of `SMTPValidator.validate` (`smtp_validator.py` lines 20-62):
an empty MX list short-circuits to the no_mx_records outcome (before the
disposable check, hence with is_disposable False); otherwise the hosts are
tried in order. -/
def smtpValidate (smtpCheck : String → String → Bool × Bool × Bool)
    (randomLocal : String) (isDisp : Bool) (email : String)
    (mxRecords : List String) : StageOutcome :=
  if mxRecords = [] then
    StageOutcome.mk false "No MX records available for SMTP validation"
      (some [("error_type", DetailValue.s "no_mx_records")]) none none false
  else smtpTryHosts smtpCheck randomLocal isDisp email mxRecords

/-- The email of the C4 example. -/
def c4Email : String := "user@nonexistent-tld-xyz123.test"

/-- DNS stage of the C4 example: the resolver reports the domain nonexistent
(NXDOMAIN on the A query). -/
def c4DnsV : String → StageOutcome :=
  dnsValidate ResolverOutcome.noAnswer (ResolverOutcome.ok [])

/-- SMTP stage stub for level basic runs, where it is never consulted. -/
def smtpStubV : String → List String → StageOutcome :=
  fun _ _ => StageOutcome.mk false "unused" none none none false

/-- The pipeline output of the C4 example at level basic. -/
def c4Out : PipelineOutput :=
  validateEmailPipeline c4Email ValidationLevel.basic syntaxPassOutcome c4DnsV smtpStubV

/-- The domain_not_found DNS outcome of the C4 example. -/
def dnsDomainNotFound : StageOutcome :=
  StageOutcome.mk false "Domain does not exist"
    (some [("error_type", DetailValue.s "domain_not_found")]) none none false

/-! Cache layer (`app/utils/cache.py`).  The durable store (Redis) is part of
the state; per-operation reachability is the `redisUp` flag (a raised
exception on the client call).  Values are a type parameter; the JSON
round-trip through the durable store is modelled as the identity.  The
in-process map is an association list looked up by key, with absolute expiry
instants as naturals. -/

/-- State of `CacheManager`: whether a Redis client was configured, the
durable store contents, and the in-process fallback map of
(value, expiry-instant) entries. -/
structure CacheState (V : Type) where
  redisConfigured : Bool
  redisStore : List (String × V)
  memoryCache : List (String × V × Nat)

/-- Embedding of `CacheManager._clean_expired` (`cache.py` lines 82-90):
drop every entry whose expiry instant has been reached. -/
def memClean {V : Type} (now : Nat) (m : List (String × V × Nat)) :
    List (String × V × Nat) :=
  m.filter (fun p => now < p.2.2)

/-- Embedding of `CacheManager.get` (`cache.py` lines 24-43): try the durable
store first when configured and reachable; on a miss or error fall back to
the in-process map, lazily deleting an expired entry. -/
def cacheGet {V : Type} (st : CacheState V) (redisUp : Bool) (now : Nat)
    (key : String) : Option V × CacheState V :=
  let redisValue : Option V :=
    if st.redisConfigured && redisUp then st.redisStore.lookup key else none
  match redisValue with
  | some v => (some v, st)
  | none =>
    match st.memoryCache.lookup key with
    | some ve =>
      if now < ve.2 then (some ve.1, st)
      else (none, CacheState.mk st.redisConfigured st.redisStore
        (st.memoryCache.filter (fun p => p.1 ≠ key)))
    | none => (none, st)

/-- Embedding of `CacheManager.set` (`cache.py` lines 45-65): when the durable
store is configured and reachable the write goes there and returns at once;
only otherwise is the in-process map updated (with expiry now + ttl),
sweeping expired entries when the map exceeds 1000 entries. -/
def cacheSet {V : Type} (st : CacheState V) (redisUp : Bool) (now : Nat)
    (key : String) (v : V) (ttl : Nat) : CacheState V :=
  if st.redisConfigured && redisUp then
    CacheState.mk st.redisConfigured
      ((key, v) :: st.redisStore.filter (fun p => p.1 ≠ key)) st.memoryCache
  else
    let m1 := (key, v, now + ttl) :: st.memoryCache.filter (fun p => p.1 ≠ key)
    let m2 := if 1000 < m1.length then memClean now m1 else m1
    CacheState.mk st.redisConfigured st.redisStore m2

/-! Rate limiter (`app/middleware/rate_limiter.py`).  Request instants are
exact rationals (Python time.time() floats); state maps each API key to its
recorded instants. -/

/-- The recorded instants for a key, empty when the key is absent, which
models the initialisation to an empty list for an unseen key. -/
def entriesFor (st : List (String × List ℚ)) (key : String) : List ℚ :=
  (st.lookup key).getD []

/-- Dictionary update of one key's recorded instants. -/
def setEntries (st : List (String × List ℚ)) (key : String) (ts : List ℚ) :
    List (String × List ℚ) :=
  (key, ts) :: st.filter (fun p => p.1 ≠ key)

/-- Embedding of `APIKeyRateLimiter.is_allowed` (`rate_limiter.py` lines
30-50): prune instants at or before now - 60, reject without recording when
the remaining count reaches the per-minute ceiling, otherwise record now and
accept. -/
def isAllowed (rateLimitPerMinute : Nat) (st : List (String × List ℚ))
    (apiKey : String) (now : ℚ) : Bool × List (String × List ℚ) :=
  let pruned := (entriesFor st apiKey).filter (fun t => now - 60 < t)
  if rateLimitPerMinute ≤ pruned.length then
    (false, setEntries st apiKey pruned)
  else
    (true, setEntries st apiKey (pruned ++ [now]))

/-- Run a sequence of (key, instant) calls through the rate limiter,
collecting the verdicts. -/
def simulateCalls (rateLimitPerMinute : Nat) :
    List (String × List ℚ) → List (String × ℚ) → List Bool
  | _, [] => []
  | st, c :: rest =>
    let r := isAllowed rateLimitPerMinute st c.1 c.2
    r.1 :: simulateCalls rateLimitPerMinute r.2 rest

/-! Theorems. -/

/-- Addresses of the merged list are disjoint from `seen` and pairwise distinct. -/
theorem removeDuplicates_nodup (l : List EmailResult) (seen : List String) :
    ((removeDuplicates l seen).map EmailResult.email).Nodup ∧
      ∀ e ∈ removeDuplicates l seen, e.email ∉ seen := by
  induction l generalizing seen with
  | nil => simp [removeDuplicates]
  | cons e rest ih =>
    by_cases h : e.email ∈ seen
    · simp only [removeDuplicates, if_pos h]
      exact ih seen
    · simp only [removeDuplicates, if_neg h]
      obtain ⟨h1, h2⟩ := ih (e.email :: seen)
      refine ⟨?_, ?_⟩
      · simp only [List.map_cons, List.nodup_cons]
        refine ⟨?_, h1⟩
        intro hmem
        obtain ⟨x, hx, hxe⟩ := List.mem_map.mp hmem
        exact (h2 x hx) (by simp [hxe])
      · intro x hx
        rcases List.mem_cons.mp hx with hx | hx
        · subst hx
          exact h
        · have := h2 x hx
          intro hc
          exact this (List.mem_cons_of_mem _ hc)

/-- Each kept candidate is the first candidate in the concatenated list whose
address is not already seen. -/
theorem removeDuplicates_first (l : List EmailResult) (seen : List String) :
    ∀ e ∈ removeDuplicates l seen,
      e.email ∉ seen ∧ l.find? (fun x => x.email == e.email) = some e := by
  induction l generalizing seen with
  | nil => simp [removeDuplicates]
  | cons a rest ih =>
    intro e he
    by_cases h : a.email ∈ seen
    · simp only [removeDuplicates, if_pos h] at he
      obtain ⟨hns, hfind⟩ := ih seen e he
      have hne : (a.email == e.email) = false := by
        simp only [beq_eq_false_iff_ne, ne_eq]
        intro hc
        exact hns (hc ▸ h)
      refine ⟨hns, ?_⟩
      simp [List.find?, hne, hfind]
    · simp only [removeDuplicates, if_neg h] at he
      rcases List.mem_cons.mp he with he | he
      · subst he
        exact ⟨h, by simp [List.find?]⟩
      · obtain ⟨hns, hfind⟩ := ih (a.email :: seen) e he
        have hne : (a.email == e.email) = false := by
          simp only [beq_eq_false_iff_ne, ne_eq]
          intro hc
          exact hns (by simp [hc])
        refine ⟨fun hc => hns (List.mem_cons_of_mem _ hc), ?_⟩
        simp [List.find?, hne, hfind]

/-- Every address occurring in the input and not in `seen` survives the merge. -/
theorem removeDuplicates_complete (l : List EmailResult) (seen : List String)
    (a : String) (hns : a ∉ seen) (hmem : ∃ x ∈ l, x.email = a) :
    ∃ e ∈ removeDuplicates l seen, e.email = a := by
  induction l generalizing seen with
  | nil => simp at hmem
  | cons x rest ih =>
    obtain ⟨y, hy, hya⟩ := hmem
    by_cases h : x.email ∈ seen
    · simp only [removeDuplicates, if_pos h]
      rcases List.mem_cons.mp hy with hy | hy
      · subst hy
        exact absurd (hya ▸ h) hns
      · exact ih seen hns ⟨y, hy, hya⟩
    · simp only [removeDuplicates, if_neg h]
      by_cases hax : a = x.email
      · exact ⟨x, List.mem_cons_self _ _, hax.symm⟩
      · have hns2 : a ∉ x.email :: seen := by
          intro hc
          rcases List.mem_cons.mp hc with hc | hc
          · exact hax hc
          · exact hns hc
        rcases List.mem_cons.mp hy with hy | hy
        · subst hy
          exact absurd hya.symm hax
        · obtain ⟨e, he, hea⟩ := ih (x.email :: seen) hns2 ⟨y, hy, hya⟩
          exact ⟨e, List.mem_cons_of_mem _ he, hea⟩

/-- C1 counterexample: two providers return the same address with confidences
0.3 (first) and 0.9 (second); the merged list keeps the first-seen candidate,
whose confidence 0.3 is not the maximum 0.9 of the returned confidences. -/
theorem C1_counterexample :
    removeDuplicates [loCand, hiCand] [] = [loCand] ∧
      loCand.confidence ≠ max loCand.confidence hiCand.confidence := by
  refine ⟨rfl, ?_⟩
  have h : loCand.confidence < hiCand.confidence := by
    norm_num [loCand, hiCand]
  rw [max_eq_right h.le]
  exact h.ne

/-- C1 (amended): after concatenating the providers' candidate lists, the merged
result contains each email address at most once, and the EmailCandidate kept for
an address returned by more than one provider is the first-seen one, so its
confidence is the confidence reported by the first provider that returned the
address (not the maximum of the reported confidences). -/
theorem C1_merge_first_seen (l : List EmailResult) :
    ((removeDuplicates l []).map EmailResult.email).Nodup ∧
      (∀ e ∈ removeDuplicates l [], l.find? (fun x => x.email == e.email) = some e) ∧
      ∀ a, (∃ x ∈ l, x.email = a) → ∃ e ∈ removeDuplicates l [], e.email = a := by
  refine ⟨(removeDuplicates_nodup l []).1, ?_, ?_⟩
  · intro e he
    exact (removeDuplicates_first l [] e he).2
  · intro a ha
    exact removeDuplicates_complete l [] a (by simp) ha

/-- Witness for the amended C1 theorem at a concrete two-provider input. -/
theorem C1_merge_first_seen_witness :
    ((removeDuplicates [loCand, hiCand] []).map EmailResult.email).Nodup ∧
      [loCand, hiCand].find? (fun x => x.email == loCand.email) = some loCand := by
  refine ⟨(C1_merge_first_seen [loCand, hiCand]).1, ?_⟩
  have hmem : loCand ∈ removeDuplicates [loCand, hiCand] [] := by
    rw [show removeDuplicates [loCand, hiCand] [] = [loCand] from rfl]
    exact List.mem_singleton_self _
  exact (C1_merge_first_seen [loCand, hiCand]).2.1 loCand hmem

/-- C2: the returned risk score is the clamped sum of 0.5 for a failed syntax
stage, 0.3 for a failed DNS stage and 0.2 for an executed-and-failed SMTP
stage; it is 0 when every executed stage passes, at least 0.5 when the syntax
stage fails, at most 1, and monotonically non-decreasing in the set of failed
stages. -/
theorem C2_risk_score (email : String) (level : ValidationLevel)
    (syntaxV dnsV : String → StageOutcome)
    (smtpV : String → List String → StageOutcome) :
    (validateEmailPipeline email level syntaxV dnsV smtpV).riskScore =
      riskOf (!(syntaxV email).valid) (!(dnsV email).valid)
        (if level = ValidationLevel.advanced ∧ (dnsV email).valid = true
          then !(smtpV email (getMxRecords (dnsV email))).valid else false) ∧
      riskOf false false false = 0 ∧
      (∀ b c : Bool, 1/2 ≤ riskOf true b c) ∧
      (∀ a b c : Bool, riskOf a b c ≤ 1) ∧
      (∀ a a' b b' c c' : Bool, (a = true → a' = true) → (b = true → b' = true) →
        (c = true → c' = true) → riskOf a b c ≤ riskOf a' b' c') := by
  refine ⟨?_, ?_, ?_, ?_, ?_⟩
  · cases level with
    | basic =>
      cases hs : (syntaxV email).valid <;> cases hd : (dnsV email).valid <;>
        simp [validateEmailPipeline, riskOf, hs, hd]
    | advanced =>
      cases hd : (dnsV email).valid
      · cases hs : (syntaxV email).valid <;>
          simp [validateEmailPipeline, riskOf, hs, hd]
      · cases hs : (syntaxV email).valid <;>
          cases hsm : (smtpV email (getMxRecords (dnsV email))).valid <;>
            simp [validateEmailPipeline, riskOf, hs, hd, hsm]
  · norm_num [riskOf]
  · intro b c
    cases b <;> cases c <;> norm_num [riskOf, min_def]
  · intro a b c
    cases a <;> cases b <;> cases c <;> norm_num [riskOf, min_def]
  · intro a a' b b' c c' ha hb hc
    cases a <;> cases b <;> cases c <;>
      cases a' <;> cases b' <;> cases c' <;>
        norm_num [riskOf, min_def] <;> simp_all

/-- Witness for C2 at concrete all-pass validators and a concrete monotone
instance of the failed-stage ordering. -/
theorem C2_risk_score_witness :
    (validateEmailPipeline "a@b.c" ValidationLevel.basic
        (fun _ => StageOutcome.mk true "ok" none none none false)
        (fun _ => StageOutcome.mk true "ok" none none none false)
        (fun _ _ => StageOutcome.mk false "no" none none none false)).riskScore =
      riskOf false false false ∧
      riskOf false false false ≤ riskOf true false false := by
  constructor
  · exact (C2_risk_score "a@b.c" ValidationLevel.basic
      (fun _ => StageOutcome.mk true "ok" none none none false)
      (fun _ => StageOutcome.mk true "ok" none none none false)
      (fun _ _ => StageOutcome.mk false "no" none none none false)).1
  · exact (C2_risk_score "a@b.c" ValidationLevel.basic
      (fun _ => StageOutcome.mk true "ok" none none none false)
      (fun _ => StageOutcome.mk true "ok" none none none false)
      (fun _ _ => StageOutcome.mk false "no" none none none false)).2.2.2.2
      false true false false false false (by simp) (by simp) (by simp)

/-- C3: the SMTP stage appears in the per-stage map exactly when the requested
level is advanced and the DNS stage returned valid; in particular it never runs
at level basic or after a failed DNS stage. -/
theorem C3_smtp_stage_iff (email : String) (level : ValidationLevel)
    (syntaxV dnsV : String → StageOutcome)
    (smtpV : String → List String → StageOutcome) :
    "smtp" ∈ ((validateEmailPipeline email level syntaxV dnsV smtpV).validationResults).map
        Prod.fst ↔
      level = ValidationLevel.advanced ∧ (dnsV email).valid = true := by
  by_cases h : level = ValidationLevel.advanced ∧ (dnsV email).valid = true
  · simp only [validateEmailPipeline, if_pos h, List.map_cons, List.map_nil]
    constructor
    · intro _
      exact h
    · intro _
      exact List.Mem.tail _ (List.Mem.tail _ (List.Mem.head _))
  · simp only [validateEmailPipeline, if_neg h, List.map_cons, List.map_nil]
    constructor
    · intro hmem
      exact absurd hmem (by decide)
    · intro hc
      exact absurd hc h

/-- Witness for C3 at a concrete basic-level run: the SMTP stage is absent. -/
theorem C3_smtp_stage_iff_witness :
    "smtp" ∉ ((validateEmailPipeline "a@b.c" ValidationLevel.basic
        (fun _ => StageOutcome.mk true "ok" none none none false)
        (fun _ => StageOutcome.mk true "ok" none none none false)
        (fun _ _ => StageOutcome.mk true "ok" none none none false)).validationResults).map
        Prod.fst := by
  intro hmem
  have h := (C3_smtp_stage_iff "a@b.c" ValidationLevel.basic
      (fun _ => StageOutcome.mk true "ok" none none none false)
      (fun _ => StageOutcome.mk true "ok" none none none false)
      (fun _ _ => StageOutcome.mk true "ok" none none none false)).mp hmem
  exact absurd h.1 (by decide)

/-- C5: whenever the pipeline reports overall valid, the syntax outcome is in
the per-stage map and is itself valid. -/
theorem C5_valid_implies_syntax (email : String) (level : ValidationLevel)
    (syntaxV dnsV : String → StageOutcome)
    (smtpV : String → List String → StageOutcome)
    (h : (validateEmailPipeline email level syntaxV dnsV smtpV).valid = true) :
    (validateEmailPipeline email level syntaxV dnsV smtpV).validationResults.lookup
        "syntax" = some (syntaxV email) ∧ (syntaxV email).valid = true := by
  by_cases hc : level = ValidationLevel.advanced ∧ (dnsV email).valid = true
  · simp only [validateEmailPipeline, if_pos hc] at h ⊢
    simp only [Bool.and_eq_true] at h
    exact ⟨by simp [List.lookup], h.1.1⟩
  · simp only [validateEmailPipeline, if_neg hc] at h ⊢
    simp only [Bool.and_eq_true] at h
    exact ⟨by simp [List.lookup], h.1⟩

/-- Witness for C5 at concrete all-pass validators. -/
theorem C5_valid_implies_syntax_witness :
    (validateEmailPipeline "a@b.c" ValidationLevel.basic
        (fun _ => StageOutcome.mk true "syntax ok" none none none false)
        (fun _ => StageOutcome.mk true "dns ok" none none none false)
        (fun _ _ => StageOutcome.mk true "smtp ok" none none none false)).validationResults.lookup
        "syntax" = some (StageOutcome.mk true "syntax ok" none none none false) ∧
      (StageOutcome.mk true "syntax ok" none none none false).valid = true := by
  exact C5_valid_implies_syntax "a@b.c" ValidationLevel.basic
    (fun _ => StageOutcome.mk true "syntax ok" none none none false)
    (fun _ => StageOutcome.mk true "dns ok" none none none false)
    (fun _ _ => StageOutcome.mk true "smtp ok" none none none false) rfl

/-- C4 counterexample: validating user@nonexistent-tld-xyz123.test at level
basic with the resolver reporting the domain nonexistent gives the
domain_not_found DNS outcome and overall invalid, but the risk score is 0.3
(syntax pass contributes 0, DNS fail contributes 0.3), not the claimed 0.8. -/
theorem C4_counterexample :
    c4Out.validationResults.lookup "dns" = some dnsDomainNotFound ∧
      dnsDomainNotFound.valid = false ∧
      detailLookup dnsDomainNotFound "error_type" = some (DetailValue.s "domain_not_found") ∧
      c4Out.valid = false ∧ c4Out.riskScore ≠ 4/5 := by
  refine ⟨rfl, rfl, rfl, rfl, ?_⟩
  show min ((0 : ℚ) + 3/10) 1 ≠ 4/5
  norm_num

/-- C4 (amended): validating user@nonexistent-tld-xyz123.test at level basic
with the resolver reporting the domain nonexistent yields a DNS StageOutcome
with valid false and detail code domain_not_found, overall valid false, and
risk score 0.3. -/
theorem C4_basic_nxdomain :
    c4Out.validationResults.lookup "dns" = some dnsDomainNotFound ∧
      dnsDomainNotFound.valid = false ∧
      detailLookup dnsDomainNotFound "error_type" = some (DetailValue.s "domain_not_found") ∧
      c4Out.valid = false ∧ c4Out.riskScore = 3/10 := by
  refine ⟨rfl, rfl, rfl, rfl, ?_⟩
  show min ((0 : ℚ) + 3/10) 1 = 3/10
  norm_num

/-- A prefix of rejecting MX hosts is skipped by the host loop. -/
theorem smtpTryHosts_skip (smtpCheck : String → String → Bool × Bool × Bool)
    (randomLocal : String) (isDisp : Bool) (email : String)
    (mxPre rest : List String)
    (hpre : ∀ m ∈ mxPre, (smtpCheck email m).1 = false) :
    smtpTryHosts smtpCheck randomLocal isDisp email (mxPre ++ rest) =
      smtpTryHosts smtpCheck randomLocal isDisp email rest := by
  induction mxPre with
  | nil => rfl
  | cons m ms ih =>
    have hm : (smtpCheck email m).1 = false := hpre m (List.mem_cons_self _ _)
    simp only [List.cons_append, smtpTryHosts, hm, Bool.false_eq_true, if_false]
    exact ih (fun x hx => hpre x (List.mem_cons_of_mem _ hx))

/-- C8: when some MX host accepts the real address (after any rejecting
hosts), the validator probes the forged address built from the random
10-character alphanumeric local part on the same domain against that host;
if the forged address is accepted too, the outcome reports is_catch_all true
while still reporting valid true for the real address. -/
theorem C8_catch_all (smtpCheck : String → String → Bool × Bool × Bool)
    (randomLocal : String) (isDisp : Bool) (email domain host : String)
    (mxPre mxRest : List String)
    (hdom : pyDomainPart email = some domain)
    (hpre : ∀ m ∈ mxPre, (smtpCheck email m).1 = false)
    (hhost : (smtpCheck email host).1 = true)
    (_hrand : randomLocal.length = 10 ∧
      ∀ c ∈ randomLocal.toList, c.isLower = true ∨ c.isDigit = true)
    (hforged : (smtpCheck (randomLocal ++ "@" ++ domain) host).1 = true ∧
      (smtpCheck (randomLocal ++ "@" ++ domain) host).2.1 = true) :
    (smtpValidate smtpCheck randomLocal isDisp email (mxPre ++ host :: mxRest)).valid
        = true ∧
      (smtpValidate smtpCheck randomLocal isDisp email (mxPre ++ host :: mxRest)).isCatchAll
        = some true := by
  have hne : mxPre ++ host :: mxRest ≠ [] := by simp
  have hca : smtpCheckCatchAll smtpCheck randomLocal email host = true := by
    simp only [smtpCheckCatchAll, hdom]
    rw [hforged.1, hforged.2]
    rfl
  rw [smtpValidate, if_neg hne,
    smtpTryHosts_skip smtpCheck randomLocal isDisp email mxPre (host :: mxRest) hpre]
  constructor
  · simp [smtpTryHosts, hhost, smtpSuccessOutcome]
  · simp [smtpTryHosts, hhost, smtpSuccessOutcome, hca]

/-- Witness for C8 at a concrete always-accepting probe oracle. -/
theorem C8_catch_all_witness :
    (smtpValidate (fun _ _ => (true, true, true)) "abcde01234" false
        "user@example.org" ["mx.example.org"]).valid = true ∧
      (smtpValidate (fun _ _ => (true, true, true)) "abcde01234" false
        "user@example.org" ["mx.example.org"]).isCatchAll = some true := by
  have h := C8_catch_all (fun _ _ => (true, true, true)) "abcde01234" false
    "user@example.org" "example.org" "mx.example.org" [] [] rfl
    (by intro m hm; simp at hm) rfl ⟨rfl, by decide⟩ ⟨rfl, rfl⟩
  simpa using h

/-- The host loop never produces the no_mx_records detail code: success
outcomes carry no error_type at all and exhaustion yields mailbox_not_found. -/
theorem smtpTryHosts_error_type (smtpCheck : String → String → Bool × Bool × Bool)
    (randomLocal : String) (isDisp : Bool) (email : String)
    (mxRecords : List String) :
    detailLookup (smtpTryHosts smtpCheck randomLocal isDisp email mxRecords)
        "error_type" ≠ some (DetailValue.s "no_mx_records") := by
  induction mxRecords with
  | nil => simp [smtpTryHosts, detailLookup, List.lookup]
  | cons mx rest ih =>
    by_cases h : (smtpCheck email mx).1 = true
    · simp [smtpTryHosts, h, smtpSuccessOutcome, detailLookup, List.lookup]
    · simp only [Bool.not_eq_true] at h
      simp only [smtpTryHosts, h, Bool.false_eq_true, if_false]
      exact ih

/-- A valid DNS stage comes from a successful MX answer whose dot-stripped
host list is non-empty, and the outcome is exactly the valid outcome built
from that list. -/
theorem dnsValidate_valid_shape (aLookup : ResolverOutcome Unit)
    (mxLookup : ResolverOutcome (List String)) (email : String)
    (h : (dnsValidate aLookup mxLookup email).valid = true) :
    ∃ rawMx, mxLookup = ResolverOutcome.ok rawMx ∧
      rawMx.map stripTrailingDots ≠ [] ∧
      dnsValidate aLookup mxLookup email =
        StageOutcome.mk true "Domain has valid MX records"
          (some [("mx_records", DetailValue.sl (rawMx.map stripTrailingDots)),
            ("mx_count", DetailValue.n (rawMx.map stripTrailingDots).length),
            ("provider_info",
              DetailValue.pinfo (analyzeMxRecords (rawMx.map stripTrailingDots)).1
                (analyzeMxRecords (rawMx.map stripTrailingDots)).2.1
                (analyzeMxRecords (rawMx.map stripTrailingDots)).2.2.1
                (analyzeMxRecords (rawMx.map stripTrailingDots)).2.2.2)])
          none (some (analyzeMxRecords (rawMx.map stripTrailingDots)).1) false := by
  rcases hdp : pyDomainPart email with _ | d
  · simp [dnsValidate, hdp] at h
  · cases aLookup with
    | ok u =>
      cases mxLookup with
      | ok rawMx =>
        by_cases hmx : rawMx.map stripTrailingDots = []
        · simp [dnsValidate, hdp, hmx] at h
        · exact ⟨rawMx, rfl, hmx, by simp [dnsValidate, hdp, hmx]⟩
      | noAnswer => simp [dnsValidate, hdp] at h
      | timeoutFail => simp [dnsValidate, hdp] at h
      | otherFail m => simp [dnsValidate, hdp] at h
    | noAnswer => simp [dnsValidate, hdp] at h
    | timeoutFail => simp [dnsValidate, hdp] at h
    | otherFail m => simp [dnsValidate, hdp] at h

/-- C10: a valid DNS stage stores a non-empty mx_records list in its details,
so the SMTP validator invoked by the pipeline on that list can never return
the no_mx_records detail code. -/
theorem C10_valid_dns_mx_nonempty (aLookup : ResolverOutcome Unit)
    (mxLookup : ResolverOutcome (List String)) (email : String)
    (h : (dnsValidate aLookup mxLookup email).valid = true) :
    getMxRecords (dnsValidate aLookup mxLookup email) ≠ [] ∧
      ∀ (smtpCheck : String → String → Bool × Bool × Bool) (randomLocal : String)
        (isDisp : Bool),
        detailLookup (smtpValidate smtpCheck randomLocal isDisp email
            (getMxRecords (dnsValidate aLookup mxLookup email))) "error_type" ≠
          some (DetailValue.s "no_mx_records") := by
  obtain ⟨rawMx, hmxl, hne, heq⟩ := dnsValidate_valid_shape aLookup mxLookup email h
  have hg : getMxRecords (dnsValidate aLookup mxLookup email) =
      rawMx.map stripTrailingDots := by
    rw [heq]
    rfl
  refine ⟨by rw [hg]; exact hne, ?_⟩
  intro smtpCheck randomLocal isDisp
  rw [hg, smtpValidate, if_neg hne]
  exact smtpTryHosts_error_type smtpCheck randomLocal isDisp email _

/-- Witness for C10 at a concrete resolver answer with one MX host. -/
theorem C10_valid_dns_mx_nonempty_witness :
    getMxRecords (dnsValidate (ResolverOutcome.ok ())
        (ResolverOutcome.ok ["mx.example.org."]) "user@example.org") ≠ [] ∧
      detailLookup (smtpValidate (fun _ _ => (false, false, false)) "abcde01234" false
          "user@example.org"
          (getMxRecords (dnsValidate (ResolverOutcome.ok ())
            (ResolverOutcome.ok ["mx.example.org."]) "user@example.org"))) "error_type" ≠
        some (DetailValue.s "no_mx_records") := by
  have h := C10_valid_dns_mx_nonempty (ResolverOutcome.ok ())
    (ResolverOutcome.ok ["mx.example.org."]) "user@example.org" rfl
  exact ⟨h.1, h.2 (fun _ _ => (false, false, false)) "abcde01234" false⟩

/-- C6 counterexample: with the durable store configured, reachable during the
set and unreachable during the get, a read within the TTL misses: the write
went only to the durable store (`cache.py` line 53 returns before the
in-process mirror) and the fallback map is empty. -/
theorem C6_counterexample :
    (cacheGet (cacheSet (CacheState.mk true [] [] : CacheState Nat) true 0 "k" 42 300)
        false 10 "k").1 = none := by
  rfl

/-- The freshly written entry is found in the in-process map even after the
size-triggered sweep, as long as it has not expired. -/
theorem lookup_after_memory_set {V : Type} (m : List (String × V × Nat)) (key : String)
    (v : V) (e now : Nat) (he : now < e) :
    (if 1000 < ((key, v, e) :: m.filter (fun p => p.1 ≠ key)).length
      then memClean now ((key, v, e) :: m.filter (fun p => p.1 ≠ key))
      else (key, v, e) :: m.filter (fun p => p.1 ≠ key)).lookup key = some (v, e) := by
  split
  · simp [memClean, List.filter_cons, he, List.lookup]
  · simp [List.lookup]

/-- C6 (amended): when the durable store is unreachable or unconfigured during
the set, the write lands in the in-process map, and a get before the TTL
expires returns the written value provided the durable store does not answer
for the key at read time (it is unreachable, unconfigured, or has no entry
for the key).  When the store was reachable during the set and unreachable
during the get, the guarantee does not hold (see the counterexample). -/
theorem C6_fallback_read_back {V : Type} (st : CacheState V) (key : String) (v : V)
    (ttl nowSet nowGet : Nat) (redisUpSet redisUpGet : Bool)
    (hset : (st.redisConfigured && redisUpSet) = false)
    (hget : (st.redisConfigured && redisUpGet) = false ∨ st.redisStore.lookup key = none)
    (h1 : nowSet ≤ nowGet) (h2 : nowGet < nowSet + ttl) :
    (cacheGet (cacheSet st redisUpSet nowSet key v ttl) redisUpGet nowGet key).1
      = some v := by
  have httl : nowSet < nowSet + ttl := lt_of_le_of_lt h1 h2
  have hsetEq : cacheSet st redisUpSet nowSet key v ttl =
      CacheState.mk st.redisConfigured st.redisStore
        (if 1000 < ((key, v, nowSet + ttl) :: st.memoryCache.filter (fun p => p.1 ≠ key)).length
          then memClean nowSet
            ((key, v, nowSet + ttl) :: st.memoryCache.filter (fun p => p.1 ≠ key))
          else (key, v, nowSet + ttl) :: st.memoryCache.filter (fun p => p.1 ≠ key)) := by
    simp only [cacheSet, hset, Bool.false_eq_true, if_false]
  rw [hsetEq]
  have hrv : (if (st.redisConfigured && redisUpGet) = true
      then st.redisStore.lookup key else none) = none := by
    rcases hget with hg | hg
    · simp [hg]
    · by_cases hb : (st.redisConfigured && redisUpGet) = true
      · simp [hb, hg]
      · simp [hb]
  simp only [cacheGet, hrv]
  rw [lookup_after_memory_set st.memoryCache key v (nowSet + ttl) nowSet httl]
  simp [h2]

/-- Witness for the amended C6 theorem: an unconfigured durable store, a write
at instant 0 with TTL 300, and a read at instant 5. -/
theorem C6_fallback_read_back_witness :
    (cacheGet (cacheSet (CacheState.mk false [] [] : CacheState Nat) true 0 "k" 42 300)
        true 5 "k").1 = some 42 := by
  exact C6_fallback_read_back (CacheState.mk false [] [] : CacheState Nat) "k" 42
    300 0 5 true true rfl (Or.inl rfl) (by decide) (by decide)

/-- Dictionary update followed by read of the same key. -/
theorem entriesFor_setEntries (st : List (String × List ℚ)) (key : String)
    (ts : List ℚ) : entriesFor (setEntries st key ts) key = ts := by
  simp [entriesFor, setEntries, List.lookup]

/-- C7: is_allowed prunes instants older than the 60-second window, rejects
without recording the call instant when the remaining count is at or above
the ceiling, and otherwise records it and accepts; with a ceiling of 10, ten
calls in one minute are accepted, the eleventh inside the window is rejected,
and a later call is accepted once the oldest recorded instant has left the
window. -/
theorem C7_rate_limiter (rateLimitPerMinute : Nat) (st : List (String × List ℚ))
    (key : String) (now : ℚ) :
    ((isAllowed rateLimitPerMinute st key now).1 = false ↔
        rateLimitPerMinute ≤ ((entriesFor st key).filter (fun t => now - 60 < t)).length) ∧
      entriesFor (isAllowed rateLimitPerMinute st key now).2 key =
        (if rateLimitPerMinute ≤ ((entriesFor st key).filter (fun t => now - 60 < t)).length
          then (entriesFor st key).filter (fun t => now - 60 < t)
          else (entriesFor st key).filter (fun t => now - 60 < t) ++ [now]) ∧
      simulateCalls 10 []
          [("k", 0), ("k", 1), ("k", 2), ("k", 3), ("k", 4), ("k", 5), ("k", 6), ("k", 7),
            ("k", 8), ("k", 9), ("k", 59), ("k", 61)] =
        [true, true, true, true, true, true, true, true, true, true, false, true] := by
  refine ⟨?_, ?_, ?_⟩
  · by_cases h : rateLimitPerMinute ≤
        ((entriesFor st key).filter (fun t => now - 60 < t)).length
    · simp [isAllowed, h]
    · simp [isAllowed, h]
  · by_cases h : rateLimitPerMinute ≤
        ((entriesFor st key).filter (fun t => now - 60 < t)).length
    · simp [isAllowed, h, entriesFor_setEntries]
    · simp [isAllowed, h, entriesFor_setEntries]
  · norm_num [simulateCalls, isAllowed, entriesFor, setEntries, List.filter, List.lookup]

/-- Witness for C7: with no recorded instants a first call is accepted. -/
theorem C7_rate_limiter_witness : (isAllowed 10 [] "k" 0).1 = true := by
  have h := (C7_rate_limiter 10 [] "k" 0).1
  cases hb : (isAllowed 10 [] "k" 0).1
  · exfalso
    have hc := h.mp hb
    simp [entriesFor, List.lookup] at hc
  · rfl

/-- A requested-method selection is empty exactly when no requested method
names an available registered provider. -/
theorem selectMethods_eq_nil_iff (providers : List (String × ProviderModel))
    (methods : List String) :
    selectMethods providers methods = [] ↔
      ∀ m ∈ methods, ∀ p, providers.lookup m = some p → p.isAvailable = false := by
  simp only [selectMethods, List.filter_eq_nil_iff]
  constructor
  · intro h m hm p hp
    have hf := h m hm
    rw [hp] at hf
    simpa using hf
  · intro h m hm
    cases hp : providers.lookup m with
    | none => simp
    | some p => simp [h m hm p hp]

/-- C9: when no requested method has an available provider, discovery fails
with the 400 bad-request error, invokes no provider and writes nothing to the
cache; when at least one requested method is available, a response is
returned (never the failure), built from the merged results of the selected
providers with raising providers contributing nothing, and it is written to
the cache. -/
theorem C9_availability (providers : List (String × ProviderModel))
    (domain : String) (methods : List String) :
    ((∀ m ∈ methods, ∀ p, providers.lookup m = some p → p.isAvailable = false) →
        discoverEmails providers domain methods = (DiscoveryOutcome.badRequest, [], false)) ∧
      ((∃ m ∈ methods, ∃ p, providers.lookup m = some p ∧ p.isAvailable = true) →
        (discoverEmails providers domain methods).1 =
            DiscoveryOutcome.ok (DiscoveryResponseModel.mk domain
              (removeDuplicates
                ((gatherResults providers (selectMethods providers methods)).flatten) [])
              (removeDuplicates
                ((gatherResults providers (selectMethods providers methods)).flatten) []).length
              false (selectMethods providers methods)) ∧
          (discoverEmails providers domain methods).2.1 = selectMethods providers methods ∧
          (discoverEmails providers domain methods).2.2 = true) := by
  constructor
  · intro h
    have hsel : selectMethods providers methods = [] :=
      (selectMethods_eq_nil_iff providers methods).mpr h
    simp [discoverEmails, hsel]
  · rintro ⟨m, hm, p, hp, hav⟩
    have hsel : selectMethods providers methods ≠ [] := by
      intro hc
      have hfa := (selectMethods_eq_nil_iff providers methods).mp hc m hm p hp
      rw [hav] at hfa
      exact Bool.true_eq_false.mp hfa
    simp [discoverEmails, hsel]

/-- Witness for C9: a single unavailable provider gives the 400 failure
branch; an available provider together with a raising provider still gives a
cached partial response. -/
theorem C9_availability_witness :
    discoverEmails [("patterns", ProviderModel.mk false (Except.ok []))]
        "example.org" ["patterns"] = (DiscoveryOutcome.badRequest, [], false) ∧
      (discoverEmails
          [("patterns", ProviderModel.mk true (Except.ok [loCand])),
            ("scraping", ProviderModel.mk true (Except.error "boom"))]
          "example.org" ["patterns", "scraping"]).2.2 = true := by
  constructor
  · apply (C9_availability [("patterns", ProviderModel.mk false (Except.ok []))]
      "example.org" ["patterns"]).1
    intro m hm q hq
    have hme : m = "patterns" := by simpa using hm
    subst hme
    have : q = ProviderModel.mk false (Except.ok []) := by
      have hl : List.lookup "patterns"
          [("patterns", ProviderModel.mk false (Except.ok []))] =
          some (ProviderModel.mk false (Except.ok [])) := rfl
      rw [hl] at hq
      exact (Option.some_inj.mp hq).symm
    rw [this]
  · exact ((C9_availability
      [("patterns", ProviderModel.mk true (Except.ok [loCand])),
        ("scraping", ProviderModel.mk true (Except.error "boom"))]
      "example.org" ["patterns", "scraping"]).2
      ⟨"patterns", by simp, ProviderModel.mk true (Except.ok [loCand]), rfl, rfl⟩).2.2

end ColdEmail
